import Mathlib

/-!
Verification development for the agentvectordb memory layer.

The definitions below are a shallow embedding of the Python code in
src/agentvector/collection.py and src/agentvector/store.py.  Python dicts
are modelled as association lists over a small dynamic value type, Python
truthiness is modelled explicitly, the SQL predicate strings produced by
the code are modelled as an abstract syntax tree with the semantics the
storage engine gives them, and the external storage engine is modelled as
a pure table (a list of rows) that the operations transform, together with
a trace of the engine calls (count / delete / search) that were issued.
Nondeterministic inputs of the code (uuid.uuid4(), time.time()) are passed
as explicit parameters.
-/

namespace AgentVectorDB

/-- A Python value as it appears in a memory-entry field mapping:
None, a string, a number (int/float modelled as a rational), a boolean,
or a vector (list of floats). -/
inductive Value where
  | none : Value
  | str (s : String) : Value
  | num (q : ℚ) : Value
  | bool (b : Bool) : Value
  | vec (xs : List ℚ) : Value
deriving DecidableEq, Repr

/-- Python truthiness of a value: None, the empty string, zero, False and
the empty list are falsy, everything else is truthy. -/
def Value.pyTruthy : Value → Bool
  | .none => false
  | .str s => s ≠ ""
  | .num q => q ≠ 0
  | .bool b => b
  | .vec xs => xs ≠ []

/-- Python len() of a value; defined only for sequences (strings and
vectors) — len() of any other value raises TypeError in Python,
modelled as absence. -/
def Value.pyLen : Value → Option Nat
  | .str s => some s.length
  | .vec xs => some xs.length
  | _ => Option.none

/-- Whether a value is the Python None. -/
def Value.isNone : Value → Bool
  | .none => true
  | _ => false

/-- A field mapping (Python dict with string keys): an association list,
with at most one binding per key maintained by FieldMap.set. -/
def FieldMap := List (String × Value)
deriving DecidableEq, Repr

/-- Dict lookup: the value bound to a key, if present (the first binding
counts; FieldMap.set keeps bindings unique). -/
def FieldMap.find? : FieldMap → String → Option Value
  | [], _ => Option.none
  | (k', v) :: rest, k => if k' = k then some v else FieldMap.find? rest k

/-- Python `k in d`. -/
def FieldMap.hasKey (d : FieldMap) (k : String) : Bool :=
  (d.find? k).isSome

/-- Python `d.get(k)`: the bound value, or None when the key is absent. -/
def FieldMap.getOrNone (d : FieldMap) (k : String) : Value :=
  (d.find? k).getD Value.none

/-- Python `d[k] = v`: replace the first binding of the key, or append a
new binding at the end (dict insertion order). -/
def FieldMap.set : FieldMap → String → Value → FieldMap
  | [], k, v => [(k, v)]
  | (k', v') :: rest, k, v =>
      if k' = k then (k, v) :: rest else (k', v') :: FieldMap.set rest k v

/-- The error kinds raised by the library (src/agentvector/exceptions.py),
plus Python's built-in ValueError and TypeError. -/
inductive AVError where
  | initializationError : AVError
  | schemaError : AVError
  | queryError : AVError
  | operationError : AVError
  | embeddingError : AVError
  | valueError : AVError
  | typeError : AVError
deriving DecidableEq, Repr

/-- The embedding-function collaborator as record preparation sees it:
the optional source_column attribute (getattr falls back to "content"
when the attribute is absent). -/
structure EF where
  source_column : Option String
deriving DecidableEq, Repr

/-- The declared source field of an embedding function:
getattr(ef, "source_column", lambda: "content")() in
collection.py line 109. -/
def EF.sourceField (f : EF) : String :=
  f.source_column.getD "content"

/-- Lines 100-101 of collection.py, the default-filling phase of
_prepare_data_for_add: if "id" is missing or falsy it is set to the
fresh uuid, and if "timestamp_created" is missing it is set to the
current time. -/
def prepare_defaults (freshId : String) (now : ℚ) (d : FieldMap) : FieldMap :=
  let d1 := if (d.getOrNone "id").pyTruthy then d else d.set "id" (.str freshId)
  if d1.hasKey "timestamp_created" then d1
  else d1.set "timestamp_created" (.num now)

/-- Lines 103-111 of collection.py, the vector-resolution checks of
_prepare_data_for_add: if "vector" is present and non-null its length
must equal the collection dimension (else SchemaError); otherwise, if the
"vector" key is absent, an embedding function must be configured (else
EmbeddingError) and its source field must be truthy in the mapping (else
EmbeddingError); a "vector" key bound to None satisfies neither branch
condition and falls through to schema validation. -/
def vector_checks (dim : Nat) (ef : Option EF) (d : FieldMap) :
    Except AVError FieldMap :=
  match d.find? "vector" with
  | some v =>
      if v.isNone then .ok d
      else
        match v.pyLen with
        | some l => if l ≠ dim then .error .schemaError else .ok d
        | Option.none => .error .typeError
  | Option.none =>
      match ef with
      | Option.none => .error .embeddingError
      | some f =>
          if (d.getOrNone f.sourceField).pyTruthy then .ok d
          else .error .embeddingError

/-- _prepare_data_for_add (collection.py lines 99-116) up to, but not
including, the final DynamicSchema.model_validate call: defaults are
filled first, then the vector-resolution checks run on the updated
mapping.  An .ok result is a mapping that proceeds to schema
validation. -/
def prepare_data_for_add (dim : Nat) (ef : Option EF) (freshId : String)
    (now : ℚ) (d : FieldMap) : Except AVError FieldMap :=
  vector_checks dim ef (prepare_defaults freshId now d)

/-- A table row as stored by the engine: a field mapping (an absent key
and a key bound to None both denote SQL NULL). -/
def Row := FieldMap
deriving DecidableEq, Repr

/-- Whether a column is NULL in a row (absent or bound to None). -/
def isNullAt (r : Row) (c : String) : Bool :=
  (FieldMap.getOrNone r c).isNone

/-- Abstract syntax of the SQL predicate strings the collection builds:
column-below-constant comparisons, IS NULL tests, string-equality tests
(with the quote escaping of the code denoting exact equality), binary
AND / OR connectives (the code's parenthesized string joins), and opaque
caller-supplied raw fragments. -/
inductive SqlExpr where
  | colLt (col : String) (v : ℚ) : SqlExpr
  | isNull (col : String) : SqlExpr
  | eqStr (col : String) (s : String) : SqlExpr
  | and (a b : SqlExpr) : SqlExpr
  | or (a b : SqlExpr) : SqlExpr
  | raw (s : String) : SqlExpr
deriving DecidableEq, Repr

/-- Engine evaluation of a predicate on a row.  A comparison with a NULL
(or non-numeric) operand is not satisfied, IS NULL is satisfied exactly
on NULL, string equality requires the stored string to equal the literal.
The meaning of raw caller-supplied fragments is a parameter rawSem. -/
def evalSql (rawSem : String → Row → Bool) : SqlExpr → Row → Bool
  | .colLt c v, r =>
      match FieldMap.getOrNone r c with
      | .num q => decide (q < v)
      | _ => false
  | .isNull c, r => isNullAt r c
  | .eqStr c s, r =>
      match FieldMap.getOrNone r c with
      | .str t => t = s
      | _ => false
  | .and a b, r => evalSql rawSem a r && evalSql rawSem b r
  | .or a b, r => evalSql rawSem a r || evalSql rawSem b r
  | .raw s, r => rawSem s r

/-- Python truthiness of an optional string argument (None and "" are
falsy). -/
def truthyOptStr : Option String → Bool
  | some s => s ≠ ""
  | Option.none => false

/-- Python truthiness of an optional list argument (None and [] are
falsy). -/
def truthyOptVec : Option (List ℚ) → Bool
  | some v => v ≠ []
  | Option.none => false

/-- Python truthiness of an optional numeric argument (None and 0 are
falsy). -/
def truthyOptNum : Option ℚ → Bool
  | some q => q ≠ 0
  | Option.none => false

/-- A call issued to the storage engine: a filtered row count, a
delete-by-predicate, or a similarity search. -/
inductive Op where
  | countOp (f : SqlExpr) : Op
  | deleteOp (f : SqlExpr) : Op
  | searchOp : Op
deriving DecidableEq, Repr

/-- count (collection.py lines 216-224): the number of rows, restricted
by the filter when one is given. -/
def count (rawSem : String → Row → Bool) (filter_sql : Option SqlExpr)
    (rows : List Row) : Nat :=
  match filter_sql with
  | some f => (rows.filter (fun r => evalSql rawSem f r)).length
  | Option.none => rows.length

/-- The final filter composed by delete (collection.py lines 202-206):
the id-equality predicate, conjoined with the caller filter when both a
truthy id and a filter are supplied; an empty-string id is falsy and
leaves the caller filter alone.  Python's None and "" filter strings are
both modelled as the absent filter, since "" is falsy at every use
site. -/
def deleteFinalFilter (entry_id : Option String)
    (filter_sql : Option SqlExpr) : Option SqlExpr :=
  match entry_id with
  | some i =>
      if i = "" then filter_sql
      else
        match filter_sql with
        | some f => some (.and (.eqStr "id" i) f)
        | Option.none => some (.eqStr "id" i)
  | Option.none => filter_sql

/-- delete (collection.py lines 198-214): requires a truthy id or a
filter (else ValueError); composes the final filter; counts the matching
rows; issues the engine delete only when the count is positive; returns
the matched count together with the remaining rows and the trace of
engine calls. -/
def delete (rawSem : String → Row → Bool) (rows : List Row)
    (entry_id : Option String) (filter_sql : Option SqlExpr) :
    Except AVError (Nat × List Row × List Op) :=
  if ¬ truthyOptStr entry_id ∧ filter_sql = Option.none then
    .error .valueError
  else
    match deleteFinalFilter entry_id filter_sql with
    | Option.none => .error .valueError
    | some f =>
        let n := (rows.filter (fun r => evalSql rawSem f r)).length
        if n > 0 then
          .ok (n, rows.filter (fun r => !(evalSql rawSem f r)),
               [.countOp f, .deleteOp f])
        else
          .ok (n, rows, [.countOp f])

/-- get_by_id (collection.py lines 176-196): a point lookup by exact id
equality (the id string is quote-escaped into the predicate, which
denotes exact equality).  The whole engine interaction sits inside a
try/except that logs and returns None, so an engine failure — modelled
by the engineFails flag — yields the same absence value as an empty
result. -/
def get_by_id (rows : List Row) (engineFails : Bool) (entry_id : String) :
    Option Row :=
  if engineFails then Option.none
  else
    match rows.filter (fun r => evalSql (fun _ _ => false)
        (.eqStr "id" entry_id) r) with
    | [] => Option.none
    | r :: _ => some r

/-- The validation prefix of query (collection.py lines 144-148): at
least one of vector/text is required (else ValueError); a truthy text
with no vector and no embedding function is an EmbeddingError; a truthy
vector (non-None and non-empty) must have the collection's dimension
(else SchemaError).  A None vector with empty text, or an empty vector,
passes all three checks. -/
def queryChecks (dim : Nat) (ef : Option EF) (query_vector : Option (List ℚ))
    (query_text : Option String) : Except AVError Unit :=
  if query_vector = Option.none ∧ query_text = Option.none then
    .error .valueError
  else if query_vector = Option.none ∧ truthyOptStr query_text ∧
      ef = Option.none then
    .error .embeddingError
  else if truthyOptVec query_vector ∧
      (query_vector.getD []).length ≠ dim then
    .error .schemaError
  else .ok ()

/-- query (collection.py lines 140-174), abstracted over the engine's
similarity ranking: the validation checks run first, and only when they
pass is the search issued to the engine (whose ranked result list is the
parameter searchResult). -/
def query (dim : Nat) (ef : Option EF) (query_vector : Option (List ℚ))
    (query_text : Option String) (searchResult : List Row) :
    Except AVError (List Row) × List Op :=
  match queryChecks dim ef query_vector query_text with
  | .error e => (.error e, [])
  | .ok _ => (.ok searchResult, [.searchOp])

/-- The arguments of prune_memories (collection.py lines 226-228).
Integer / float thresholds are modelled as rationals; the raw
custom_filter_sql_addon string is modelled as an optional predicate
(Python's None and "" are both falsy at every use site and are both
modelled as the absent addon). -/
structure PruneArgs where
  max_age_seconds : Option ℚ
  min_importance_score : Option ℚ
  max_last_accessed_seconds : Option ℚ
  filter_logic : String
  custom_filter_sql_addon : Option SqlExpr
  dry_run : Bool

/-- The early-exit gate of prune_memories (collection.py line 230):
any([max_age_seconds, min_importance_score is not None,
max_last_accessed_seconds, custom_filter_sql_addon]).  Note the Python
truthiness: a zero max_age_seconds or max_last_accessed_seconds does not
pass the gate, while a zero min_importance_score does. -/
def pruneGate (a : PruneArgs) : Bool :=
  truthyOptNum a.max_age_seconds || a.min_importance_score.isSome ||
    truthyOptNum a.max_last_accessed_seconds ||
    a.custom_filter_sql_addon.isSome

/-- The condition compiled for a supplied min_importance_score
(collection.py line 235): importance below the threshold OR importance
IS NULL. -/
def importanceCond (x : ℚ) : SqlExpr :=
  .or (.colLt "importance_score" x) (.isNull "importance_score")

/-- The condition compiled for a supplied max_last_accessed_seconds
(collection.py lines 236-237): last access before now minus the
staleness OR last access IS NULL. -/
def lastAccessedCond (now s : ℚ) : SqlExpr :=
  .or (.colLt "timestamp_last_accessed" (now - s))
      (.isNull "timestamp_last_accessed")

/-- The list of compiled pruning conditions (collection.py lines
233-237); each threshold contributes its condition when it is not None
(regardless of the gate's truthiness test). -/
def pruneConds (now : ℚ) (a : PruneArgs) : List SqlExpr :=
  (match a.max_age_seconds with
   | some g => [SqlExpr.colLt "timestamp_created" (now - g)]
   | Option.none => []) ++
  (match a.min_importance_score with
   | some x => [importanceCond x]
   | Option.none => []) ++
  (match a.max_last_accessed_seconds with
   | some s => [lastAccessedCond now s]
   | Option.none => [])

/-- The string join of the compiled conditions with the caller-chosen
logical connective (collection.py line 239).  The code uppercases the
filter_logic string; the resulting SQL is a chain of that connective, a
disjunction for "OR" and a conjunction otherwise (with any string other
than AND / OR the engine would reject the predicate; the conjunction
reading stands in for the default "AND"). -/
def joinConds (logic : String) : SqlExpr → List SqlExpr → SqlExpr
  | c, [] => c
  | c, c' :: rest =>
      joinConds logic (if logic.toUpper = "OR" then .or c c' else .and c c') rest

/-- The final pruning filter (collection.py lines 239-241): the joined
conditions, conjoined with the custom addon when both are present,
otherwise whichever of the two exists. -/
def pruneFinalFilter (now : ℚ) (a : PruneArgs) : Option SqlExpr :=
  let mainFilter : Option SqlExpr :=
    match pruneConds now a with
    | [] => Option.none
    | c :: rest => some (joinConds a.filter_logic c rest)
  match mainFilter, a.custom_filter_sql_addon with
  | some m, some c => some (.and m c)
  | some m, Option.none => some m
  | Option.none, some c => some c
  | Option.none, Option.none => Option.none

/-- prune_memories (collection.py lines 226-249): returns 0 at the gate
or when no filter compiles; otherwise counts the matching rows and —
unless dry_run — delegates to delete (which recounts, deletes when the
count is positive, and returns the matched count).  The result carries
the returned count, the remaining rows and the engine-call trace. -/
def prune_memories (rawSem : String → Row → Bool) (now : ℚ) (a : PruneArgs)
    (rows : List Row) : Except AVError (Nat × List Row × List Op) :=
  if ¬ pruneGate a then .ok (0, rows, [])
  else
    match pruneFinalFilter now a with
    | Option.none => .ok (0, rows, [])
    | some f =>
        let n := count rawSem (some f) rows
        if ¬ a.dry_run ∧ n > 0 then
          match delete rawSem rows Option.none (some f) with
          | .ok (m, rows', ops) => .ok (m, rows', .countOp f :: ops)
          | .error e => .error e
        else .ok (n, rows, [.countOp f])

/-- The count a prune_memories call reports without touching the data:
0 when the gate or filter compilation short-circuits, otherwise the
number of rows matching the compiled filter. -/
def pruneMatchCount (rawSem : String → Row → Bool) (now : ℚ) (a : PruneArgs)
    (rows : List Row) : Nat :=
  if ¬ pruneGate a then 0
  else
    match pruneFinalFilter now a with
    | Option.none => 0
    | some f => count rawSem (some f) rows

/-- The state of an AgentVectorStore (src/agentvector/store.py): the
process-local collection cache and the engine's table directory. -/
structure StoreState where
  cache : List String
  tables : List String
deriving DecidableEq, Repr

/-- delete_collection (store.py lines 63-70): evict the name from the
cache; succeed immediately when the engine has no such table; otherwise
drop the table (the engine collaborator is modelled as reliable, so the
drop succeeds).  Returns the success flag and the new state. -/
def delete_collection (s : StoreState) (name : String) : Bool × StoreState :=
  let s1 : StoreState := { s with cache := s.cache.filter (fun c => c ≠ name) }
  if name ∈ s1.tables then
    (true, { s1 with tables := s1.tables.filter (fun t => t ≠ name) })
  else (true, s1)

/-- A heap of Python dict objects, for stating aliasing / mutation
properties: references are allocation-ordered naturals, and every
reference below next is considered allocated. -/
structure Heap where
  store : List (Nat × FieldMap)
  next : Nat

/-- First-binding lookup in a heap store. -/
def Heap.lookup : List (Nat × FieldMap) → Nat → FieldMap
  | [], _ => []
  | (r', d) :: rest, r => if r' = r then d else Heap.lookup rest r

/-- The dict object a reference points to (the empty dict for a dangling
reference). -/
def Heap.get (h : Heap) (r : Nat) : FieldMap :=
  Heap.lookup h.store r

/-- In-place mutation of the dict object at a reference, modelled by a
shadowing binding. -/
def Heap.put (h : Heap) (r : Nat) (d : FieldMap) : Heap :=
  { h with store := (r, d) :: h.store }

/-- Allocation of a fresh dict object (Python dict.copy allocates and
copies the top-level bindings). -/
def Heap.alloc (h : Heap) (d : FieldMap) : Nat × Heap :=
  (h.next, { store := (h.next, d) :: h.store, next := h.next + 1 })

/-- add (collection.py lines 118-123) at the heap level: the caller's
kwargs dict is shallow-copied, _prepare_data_for_add mutates the copy in
place (defaults first, then the vector checks), and on success the id of
the prepared entry is returned.  The heap is returned in both outcomes
so the caller's dict can be inspected afterwards. -/
def addHeap (dim : Nat) (ef : Option EF) (freshId : String) (now : ℚ)
    (h : Heap) (caller : Nat) : Except AVError String × Heap :=
  let rh := h.alloc (h.get caller)
  let d2 := prepare_defaults freshId now (rh.2.get rh.1)
  let h2 := rh.2.put rh.1 d2
  (match vector_checks dim ef d2 with
   | .error e => .error e
   | .ok _ =>
       match d2.find? "id" with
       | some (.str i) => .ok i
       | _ => .ok "", h2)

/-- add_batch (collection.py lines 125-131) at the heap level: each
caller dict is shallow-copied and prepared in sequence, aborting on the
first preparation error (after the mutations already performed on the
copies); on success the list of prepared ids is returned.  The fresh
uuids are indexed by position. -/
def add_batchHeap (dim : Nat) (ef : Option EF) (freshIds : Nat → String)
    (now : ℚ) : Nat → Heap → List Nat → Except AVError (List String) × Heap
  | _, h, [] => (.ok [], h)
  | i, h, c :: cs =>
      let rh := h.alloc (h.get c)
      let d2 := prepare_defaults (freshIds i) now (rh.2.get rh.1)
      let h2 := rh.2.put rh.1 d2
      match vector_checks dim ef d2 with
      | .error e => (.error e, h2)
      | .ok _ =>
          let entryId := match d2.find? "id" with
            | some (.str s) => s
            | _ => ""
          match add_batchHeap dim ef freshIds now (i + 1) h2 cs with
          | (.ok ids, h3) => (.ok (entryId :: ids), h3)
          | (.error e, h3) => (.error e, h3)

/-! Helper lemmas. -/

/-- Setting a key changes exactly that key's binding. -/
theorem FieldMap.find?_set (d : FieldMap) (k k' : String) (v : Value) :
    FieldMap.find? (d.set k v) k' =
      if k = k' then some v else d.find? k' := by
  induction d with
  | nil => simp [FieldMap.set, FieldMap.find?]
  | cons a t ih =>
      obtain ⟨ak, aw⟩ := a
      by_cases hak : ak = k
      · subst hak
        by_cases hk' : ak = k' <;> simp [FieldMap.set, FieldMap.find?, hk']
      · simp only [FieldMap.set, if_neg hak, FieldMap.find?, ih]
        by_cases hak' : ak = k'
        · subst hak'
          simp only [if_pos rfl, if_neg (fun hkk : k = ak => hak hkk.symm)]
        · simp [hak']

/-- The rows a predicate rejects and the rows it keeps partition the
table. -/
theorem length_filter_not_add {α : Type} (p : α → Bool) (l : List α) :
    (l.filter (fun a => !(p a))).length + (l.filter p).length = l.length := by
  induction l with
  | nil => simp
  | cons a t ih =>
      cases hpa : p a <;> simp [List.filter_cons, hpa] <;> omega

theorem Heap.get_put (h : Heap) (r c : Nat) (d : FieldMap) :
    (h.put r d).get c = if r = c then d else h.get c := rfl

theorem Heap.get_alloc (h : Heap) (d : FieldMap) (c : Nat) :
    ((h.alloc d).2).get c = if h.next = c then d else h.get c := rfl

theorem Heap.next_alloc (h : Heap) (d : FieldMap) :
    ((h.alloc d).2).next = h.next + 1 := rfl

theorem Heap.next_put (h : Heap) (r : Nat) (d : FieldMap) :
    (h.put r d).next = h.next := rfl

/-! Claim theorems. -/

/-- C9: a prune_memories call whose only supplied condition is a zero
max_age_seconds, or a zero max_last_accessed_seconds, with no other
condition and no custom addon, returns 0 with the table untouched and no
engine call issued: the zero threshold is falsy at the early-exit gate
and is treated like an absent condition. -/
theorem prune_zero_threshold_is_noop (rawSem : String → Row → Bool)
    (now : ℚ) (rows : List Row) (logic : String) (dry : Bool) :
    prune_memories rawSem now
      ⟨some 0, Option.none, Option.none, logic, Option.none, dry⟩ rows =
      .ok (0, rows, []) ∧
    prune_memories rawSem now
      ⟨Option.none, Option.none, some 0, logic, Option.none, dry⟩ rows =
      .ok (0, rows, []) := by
  constructor <;> rfl

/-- delete_collection reports success in both of its branches. -/
theorem delete_collection_fst (t : StoreState) (n : String) :
    (delete_collection t n).1 = true := by
  unfold delete_collection
  dsimp only
  split <;> rfl

/-- The cache no longer holds the deleted name, in both branches. -/
theorem delete_collection_cache (t : StoreState) (n : String) :
    (delete_collection t n).2.cache = t.cache.filter (fun c => c ≠ n) := by
  unfold delete_collection
  dsimp only
  split <;> rfl

/-- The engine's table directory no longer holds the deleted name. -/
theorem delete_collection_not_mem (t : StoreState) (n : String) :
    n ∉ (delete_collection t n).2.tables := by
  unfold delete_collection
  dsimp only
  split
  next hmem => simp [List.mem_filter]
  next hmem => simpa using hmem

/-- C7: delete_collection is idempotent: it returns true on every call
(in particular for a name that never existed), and a second call on the
same name is a no-op, returning true and leaving the store state exactly
as the first call left it. -/
theorem delete_collection_idempotent (s : StoreState) (name : String) :
    (delete_collection s name).1 = true ∧
    (delete_collection (delete_collection s name).2 name).1 = true ∧
    (delete_collection (delete_collection s name).2 name).2 =
      (delete_collection s name).2 := by
  refine ⟨delete_collection_fst s name,
    delete_collection_fst (delete_collection s name).2 name, ?_⟩
  have hnm := delete_collection_not_mem s name
  have hca := delete_collection_cache s name
  cases hdc : (delete_collection s name).2 with
  | mk ca ta =>
      rw [hdc] at hnm hca
      dsimp only at hnm hca
      unfold delete_collection
      dsimp only
      rw [if_neg hnm]
      simp only [StoreState.mk.injEq, and_true]
      rw [hca, List.filter_filter]
      simp

/-- C5: get_by_id never raises: it is a total function into an optional
row.  When no stored row carries the requested id it returns the absence
value, and when the engine fails during the lookup the failure is
downgraded to the same absence value. -/
theorem get_by_id_absent (rows : List Row) (engineFails : Bool)
    (entry_id : String) :
    (engineFails = true → get_by_id rows engineFails entry_id = Option.none) ∧
    ((∀ r ∈ rows, FieldMap.getOrNone r "id" ≠ Value.str entry_id) →
      get_by_id rows engineFails entry_id = Option.none) := by
  constructor
  · intro hf
    simp [get_by_id, hf]
  · intro hnone
    unfold get_by_id
    split
    · rfl
    · have hnil : rows.filter (fun r => evalSql (fun _ _ => false)
          (.eqStr "id" entry_id) r) = [] := by
        rw [List.filter_eq_nil_iff]
        intro r hr
        have hid := hnone r hr
        simp only [evalSql]
        cases hv : FieldMap.getOrNone r "id" <;> simp_all
      rw [hnil]

/-- C5 witness: a concrete missing id and a concrete engine failure both
yield the absence value. -/
theorem get_by_id_absent_witness :
    get_by_id [[("id", Value.str "a")]] true "a" = Option.none ∧
    get_by_id [[("id", Value.str "a")]] false "b" = Option.none :=
  ⟨(get_by_id_absent [[("id", Value.str "a")]] true "a").1 rfl,
   (get_by_id_absent [[("id", Value.str "a")]] false "b").2 (by decide)⟩

/-- C2: when prune_memories is given a minimum-importance threshold, the
condition it compiles for it is (importance_score < x OR importance_score
IS NULL), which a row with a missing or null importance_score satisfies;
likewise the staleness condition compiled for max_last_accessed_seconds
is satisfied by a row with a missing or null timestamp_last_accessed.
Null always passes the threshold check. -/
theorem prune_null_passes_thresholds (rawSem : String → Row → Bool)
    (now : ℚ) (a : PruneArgs) (r : Row) :
    (∀ x, a.min_importance_score = some x →
      importanceCond x ∈ pruneConds now a ∧
      (isNullAt r "importance_score" = true →
        evalSql rawSem (importanceCond x) r = true)) ∧
    (∀ s, a.max_last_accessed_seconds = some s →
      lastAccessedCond now s ∈ pruneConds now a ∧
      (isNullAt r "timestamp_last_accessed" = true →
        evalSql rawSem (lastAccessedCond now s) r = true)) := by
  constructor
  · intro x hx
    constructor
    · unfold pruneConds
      rw [hx]
      simp
    · intro hnull
      simp [importanceCond, evalSql, hnull]
  · intro s hs
    constructor
    · unfold pruneConds
      rw [hs]
      simp
    · intro hnull
      simp [lastAccessedCond, evalSql, hnull]

/-- C2 witness: with both thresholds supplied and a row that has neither
an importance_score nor a timestamp_last_accessed, both compiled
conditions are present and both evaluate to true on the row. -/
theorem prune_null_passes_thresholds_witness :
    (importanceCond (1/2) ∈
      pruneConds 100 ⟨Option.none, some (1/2), some 10, "AND",
        Option.none, false⟩ ∧
      evalSql (fun _ _ => false) (importanceCond (1/2))
        [("id", Value.str "e")] = true) ∧
    (lastAccessedCond 100 10 ∈
      pruneConds 100 ⟨Option.none, some (1/2), some 10, "AND",
        Option.none, false⟩ ∧
      evalSql (fun _ _ => false) (lastAccessedCond 100 10)
        [("id", Value.str "e")] = true) := by
  refine ⟨⟨?_, ?_⟩, ⟨?_, ?_⟩⟩
  · exact ((prune_null_passes_thresholds (fun _ _ => false) 100
      ⟨Option.none, some (1/2), some 10, "AND", Option.none, false⟩
      [("id", Value.str "e")]).1 (1/2) rfl).1
  · exact ((prune_null_passes_thresholds (fun _ _ => false) 100
      ⟨Option.none, some (1/2), some 10, "AND", Option.none, false⟩
      [("id", Value.str "e")]).1 (1/2) rfl).2 (by decide)
  · exact ((prune_null_passes_thresholds (fun _ _ => false) 100
      ⟨Option.none, some (1/2), some 10, "AND", Option.none, false⟩
      [("id", Value.str "e")]).2 10 rfl).1
  · exact ((prune_null_passes_thresholds (fun _ _ => false) 100
      ⟨Option.none, some (1/2), some 10, "AND", Option.none, false⟩
      [("id", Value.str "e")]).2 10 rfl).2 (by decide)

/-- Setting one key leaves every other key's binding unchanged. -/
theorem FieldMap.find?_set_ne (d : FieldMap) {k k' : String} (v : Value)
    (h : ¬ k = k') : FieldMap.find? (d.set k v) k' = d.find? k' := by
  rw [FieldMap.find?_set, if_neg h]

/-- Setting a key binds exactly the given value at that key. -/
theorem FieldMap.find?_set_self (d : FieldMap) (k : String) (v : Value) :
    FieldMap.find? (d.set k v) k = some v := by
  rw [FieldMap.find?_set, if_pos rfl]

/-- What the default-filling phase leaves at "id": the input binding when
it was truthy, the fresh identifier otherwise. -/
theorem prepare_defaults_find_id (freshId : String) (now : ℚ)
    (d : FieldMap) :
    FieldMap.find? (prepare_defaults freshId now d) "id" =
      if (FieldMap.getOrNone d "id").pyTruthy then FieldMap.find? d "id"
      else some (Value.str freshId) := by
  have hne : ¬("timestamp_created" = "id") := by decide
  unfold prepare_defaults
  by_cases h : (FieldMap.getOrNone d "id").pyTruthy
  · simp only [if_pos h]
    split
    · rfl
    · rw [FieldMap.find?_set_ne _ _ hne]
  · simp only [if_neg h]
    split
    · rw [FieldMap.find?_set_self]
    · rw [FieldMap.find?_set_ne _ _ hne, FieldMap.find?_set_self]

/-- What the default-filling phase leaves at "timestamp_created": the
input binding when the key was present, the current time otherwise. -/
theorem prepare_defaults_find_ts (freshId : String) (now : ℚ)
    (d : FieldMap) :
    FieldMap.find? (prepare_defaults freshId now d) "timestamp_created" =
      match FieldMap.find? d "timestamp_created" with
      | some v => some v
      | Option.none => some (Value.num now) := by
  have hne : ¬("id" = "timestamp_created") := by decide
  unfold prepare_defaults
  by_cases h : (FieldMap.getOrNone d "id").pyTruthy
  · simp only [if_pos h]
    split
    next hk =>
      unfold FieldMap.hasKey at hk
      cases hf : FieldMap.find? d "timestamp_created" with
      | some v => simp
      | none => rw [hf] at hk; simp at hk
    next hk =>
      unfold FieldMap.hasKey at hk
      cases hf : FieldMap.find? d "timestamp_created" with
      | some v => rw [hf] at hk; simp at hk
      | none => rw [FieldMap.find?_set_self]
  · simp only [if_neg h]
    split
    next hk =>
      unfold FieldMap.hasKey at hk
      rw [FieldMap.find?_set_ne _ _ hne] at hk ⊢
      cases hf : FieldMap.find? d "timestamp_created" with
      | some v => simp
      | none => rw [hf] at hk; simp at hk
    next hk =>
      unfold FieldMap.hasKey at hk
      rw [FieldMap.find?_set_ne _ _ hne] at hk
      cases hf : FieldMap.find? d "timestamp_created" with
      | some v => rw [hf] at hk; simp at hk
      | none => rw [FieldMap.find?_set_self]

/-- C8: record preparation fills defaults before validation: a missing
or empty "id" is replaced by the fresh unique identifier and a missing
"timestamp_created" by the current time, while a supplied non-empty id
and a supplied timestamp_created are kept unchanged; the vector checks
then run on the default-filled mapping. -/
theorem prepare_fills_defaults (dim : Nat) (ef : Option EF)
    (freshId : String) (now : ℚ) (d : FieldMap) :
    (FieldMap.find? d "id" = Option.none ∨
        FieldMap.find? d "id" = some (Value.str "") →
      FieldMap.find? (prepare_defaults freshId now d) "id" =
        some (Value.str freshId)) ∧
    (∀ s, s ≠ "" → FieldMap.find? d "id" = some (Value.str s) →
      FieldMap.find? (prepare_defaults freshId now d) "id" =
        some (Value.str s)) ∧
    (FieldMap.find? d "timestamp_created" = Option.none →
      FieldMap.find? (prepare_defaults freshId now d) "timestamp_created" =
        some (Value.num now)) ∧
    (∀ v, FieldMap.find? d "timestamp_created" = some v →
      FieldMap.find? (prepare_defaults freshId now d) "timestamp_created" =
        some v) ∧
    prepare_data_for_add dim ef freshId now d =
      vector_checks dim ef (prepare_defaults freshId now d) := by
  refine ⟨?_, ?_, ?_, ?_, rfl⟩
  · intro hid
    rw [prepare_defaults_find_id]
    have : (FieldMap.getOrNone d "id").pyTruthy = false := by
      unfold FieldMap.getOrNone
      rcases hid with hid | hid <;> rw [hid] <;> rfl
    rw [this]
    simp
  · intro s hs hid
    rw [prepare_defaults_find_id]
    have : (FieldMap.getOrNone d "id").pyTruthy = true := by
      unfold FieldMap.getOrNone
      rw [hid]
      simpa [Value.pyTruthy] using hs
    rw [this]
    simpa using hid
  · intro hts
    rw [prepare_defaults_find_ts, hts]
  · intro v hts
    rw [prepare_defaults_find_ts, hts]

/-- C8 witness: a mapping with an empty id and no timestamp_created gets
the fresh id and the current time, while a mapping that supplies both
keeps them. -/
theorem prepare_fills_defaults_witness :
    FieldMap.find? (prepare_defaults "u1" 7 [("id", Value.str ""),
      ("content", Value.str "x")]) "id" = some (Value.str "u1") ∧
    FieldMap.find? (prepare_defaults "u1" 7 [("id", Value.str ""),
      ("content", Value.str "x")]) "timestamp_created" =
      some (Value.num 7) ∧
    FieldMap.find? (prepare_defaults "u1" 7 [("id", Value.str "keep"),
      ("timestamp_created", Value.num 3)]) "id" = some (Value.str "keep") ∧
    FieldMap.find? (prepare_defaults "u1" 7 [("id", Value.str "keep"),
      ("timestamp_created", Value.num 3)]) "timestamp_created" =
      some (Value.num 3) :=
  ⟨(prepare_fills_defaults 1 Option.none "u1" 7 _).1 (Or.inr (by decide)),
   (prepare_fills_defaults 1 Option.none "u1" 7 _).2.2.1 (by decide),
   (prepare_fills_defaults 1 Option.none "u1" 7 _).2.1 "keep"
     (by decide) (by decide),
   (prepare_fills_defaults 1 Option.none "u1" 7 _).2.2.2.1 (Value.num 3)
     (by decide)⟩

/-- C3 counterexample: an empty query vector whose length (0) differs
from the collection dimension (2) does not fail with SchemaError — the
empty list is falsy, the dimension check is skipped and the search is
issued. -/
theorem query_empty_vector_counterexample :
    query 2 Option.none (some []) Option.none [] =
      (.ok [], [.searchOp]) := rfl

/-- C3 (amended): query fails with ValueError when neither vector nor
text is given; with EmbeddingError when only a non-empty text is given
and no embedding function is configured; and with SchemaError, before
any search is issued, for every non-empty query vector whose length
differs from the collection dimension — while an empty query vector
bypasses the dimension check and the search is issued. -/
theorem query_validation (dim : Nat) (ef : Option EF)
    (qv : Option (List ℚ)) (qt : Option String) (res : List Row) :
    (qv = Option.none → qt = Option.none →
      query dim ef qv qt res = (.error .valueError, [])) ∧
    (∀ t, qv = Option.none → qt = some t → t ≠ "" → ef = Option.none →
      query dim ef qv qt res = (.error .embeddingError, [])) ∧
    (∀ v, qv = some v → v ≠ [] → v.length ≠ dim →
      query dim ef qv qt res = (.error .schemaError, [])) ∧
    (qv = some [] → query dim ef qv qt res = (.ok res, [.searchOp])) := by
  refine ⟨?_, ?_, ?_, ?_⟩
  · intro hv ht
    subst hv; subst ht
    rfl
  · intro t hv ht hne hef
    subst hv; subst ht; subst hef
    simp [query, queryChecks, truthyOptStr, hne]
  · intro v hv hne hlen
    subst hv
    simp [query, queryChecks, truthyOptVec, hne, hlen]
  · intro hv
    subst hv
    simp [query, queryChecks, truthyOptVec]

/-- C3 witness: each validation outcome at a concrete input: no
arguments, text-only without an embedding function, and a non-empty
wrong-length vector. -/
theorem query_validation_witness :
    query 2 Option.none Option.none Option.none [] =
      (.error .valueError, []) ∧
    query 2 Option.none Option.none (some "paris") [] =
      (.error .embeddingError, []) ∧
    query 2 Option.none (some [1]) Option.none [] =
      (.error .schemaError, []) :=
  ⟨(query_validation 2 Option.none Option.none Option.none []).1 rfl rfl,
   (query_validation 2 Option.none Option.none (some "paris") []).2.1
     "paris" rfl rfl (by decide) rfl,
   (query_validation 2 Option.none (some [1]) Option.none []).2.2.1
     [1] rfl (by decide) (by decide)⟩

/-- C4: delete fails with ValueError when neither id nor filter is
supplied; an id supplied together with a filter yields the id-equality
predicate conjoined with the filter; and whenever a final filter exists
the operation counts the matching rows, issues the engine delete only
when that count is positive, and returns the count (0 with no deletion
and no error when nothing matched). -/
theorem delete_spec (rawSem : String → Row → Bool) (rows : List Row)
    (entry_id : Option String) (filter_sql : Option SqlExpr) :
    (entry_id = Option.none → filter_sql = Option.none →
      delete rawSem rows entry_id filter_sql = .error .valueError) ∧
    (∀ i f, entry_id = some i → i ≠ "" → filter_sql = some f →
      deleteFinalFilter entry_id filter_sql =
        some (.and (.eqStr "id" i) f)) ∧
    (∀ f, deleteFinalFilter entry_id filter_sql = some f →
      delete rawSem rows entry_id filter_sql =
        .ok ((rows.filter (fun r => evalSql rawSem f r)).length,
             if 0 < (rows.filter (fun r => evalSql rawSem f r)).length
             then rows.filter (fun r => !(evalSql rawSem f r)) else rows,
             if 0 < (rows.filter (fun r => evalSql rawSem f r)).length
             then [.countOp f, .deleteOp f] else [.countOp f])) := by
  refine ⟨?_, ?_, ?_⟩
  · intro hi hf
    subst hi; subst hf
    rfl
  · intro i f hi hne hf
    subst hi; subst hf
    simp [deleteFinalFilter, hne]
  · intro f hf
    unfold delete
    rw [if_neg ?_, hf]
    · dsimp only
      by_cases hn : 0 < (rows.filter (fun r => evalSql rawSem f r)).length
      · simp [hn]
      · simp [hn]
    · rintro ⟨hts, hfe⟩
      subst hfe
      cases entry_id with
      | none => exact Option.noConfusion hf
      | some i =>
          have hie : i = "" := by
            by_contra hne
            exact hts (by simpa [truthyOptStr] using hne)
          rw [hie] at hf
          simp [deleteFinalFilter] at hf

/-- C4 witness: deleting a present id removes exactly that row and
returns 1; deleting with no arguments is a ValueError; an id supplied
with a filter composes the conjunction. -/
theorem delete_spec_witness :
    delete (fun _ _ => false)
      [[("id", Value.str "a")], [("id", Value.str "b")]]
      (some "a") Option.none =
      .ok (1, [[("id", Value.str "b")]],
           [.countOp (.eqStr "id" "a"), .deleteOp (.eqStr "id" "a")]) ∧
    delete (fun _ _ => false) [] Option.none Option.none =
      .error .valueError ∧
    deleteFinalFilter (some "a") (some (.raw "t")) =
      some (.and (.eqStr "id" "a") (.raw "t")) := by
  refine ⟨?_, ?_, ?_⟩
  · have h := (delete_spec (fun _ _ => false)
      [[("id", Value.str "a")], [("id", Value.str "b")]]
      (some "a") Option.none).2.2 (.eqStr "id" "a") rfl
    exact h.trans (by rfl)
  · exact (delete_spec (fun _ _ => false) [] Option.none Option.none).1
      rfl rfl
  · exact (delete_spec (fun _ _ => false) [] (some "a")
      (some (.raw "t"))).2.1 "a" (.raw "t") rfl (by decide) rfl

/-- C6: a dry-run prune leaves the stored rows unchanged and returns the
number of rows the compiled pruning predicate matches (0 when the gate
or filter compilation short-circuits), which equals the count a real
prune on the same unchanged data returns and removes: the real run
leaves exactly the non-matching rows behind. -/
theorem prune_dry_run_invariant (rawSem : String → Row → Bool) (now : ℚ)
    (a : PruneArgs) (rows : List Row) (h : a.dry_run = true) :
    (∃ ops, prune_memories rawSem now a rows =
      .ok (pruneMatchCount rawSem now a rows, rows, ops)) ∧
    (∃ ops rows2, prune_memories rawSem now { a with dry_run := false }
        rows = .ok (pruneMatchCount rawSem now a rows, rows2, ops) ∧
      rows2.length + pruneMatchCount rawSem now a rows = rows.length) := by
  have hgate : pruneGate { a with dry_run := false } = pruneGate a := rfl
  have hfine : pruneFinalFilter now { a with dry_run := false } =
      pruneFinalFilter now a := rfl
  by_cases hg : pruneGate a = true
  · cases hf : pruneFinalFilter now a with
    | none =>
        refine ⟨⟨[], ?_⟩, ⟨[], rows, ?_, ?_⟩⟩
        · simp [prune_memories, pruneMatchCount, hg, hf]
        · simp [prune_memories, pruneMatchCount, hgate, hfine, hg, hf]
        · simp [pruneMatchCount, hg, hf]
    | some f =>
        have hn : pruneMatchCount rawSem now a rows =
            count rawSem (some f) rows := by
          simp [pruneMatchCount, hg, hf]
        by_cases hpos : 0 < count rawSem (some f) rows
        · refine ⟨⟨[.countOp f], ?_⟩,
            ⟨[.countOp f, .countOp f, .deleteOp f],
             rows.filter (fun r => !(evalSql rawSem f r)), ?_, ?_⟩⟩
          · simp [prune_memories, hg, hf, h, hn]
          · have hcnt : 0 < (rows.filter
                (fun r => evalSql rawSem f r)).length := by
              simpa [count] using hpos
            simp [prune_memories, delete, deleteFinalFilter, hgate, hfine,
              hg, hf, hn, hpos, hcnt, truthyOptStr, count]
          · rw [hn]
            unfold count
            exact length_filter_not_add _ rows
        · refine ⟨⟨[.countOp f], ?_⟩, ⟨[.countOp f], rows, ?_, ?_⟩⟩
          · simp [prune_memories, hg, hf, h, hn]
          · simp [prune_memories, hgate, hfine, hg, hf, hn, hpos]
          · rw [hn, Nat.eq_zero_of_not_pos hpos, Nat.add_zero]
  · refine ⟨⟨[], ?_⟩, ⟨[], rows, ?_, ?_⟩⟩
    · simp [prune_memories, pruneMatchCount, hg]
    · simp [prune_memories, pruneMatchCount, hgate, hg]
    · simp [pruneMatchCount, hg]

/-- C6 witness: a concrete dry-run prune over one row with a null
importance_score reports the one match and leaves the row in place. -/
theorem prune_dry_run_invariant_witness :
    (∃ ops, prune_memories (fun _ _ => false) 100
      ⟨Option.none, some (1/2), Option.none, "AND", Option.none, true⟩
      [[("id", Value.str "e")]] =
      .ok (pruneMatchCount (fun _ _ => false) 100
        ⟨Option.none, some (1/2), Option.none, "AND", Option.none, true⟩
        [[("id", Value.str "e")]], [[("id", Value.str "e")]], ops)) ∧
    pruneMatchCount (fun _ _ => false) 100
      ⟨Option.none, some (1/2), Option.none, "AND", Option.none, true⟩
      [[("id", Value.str "e")]] = 1 :=
  ⟨(prune_dry_run_invariant (fun _ _ => false) 100
      ⟨Option.none, some (1/2), Option.none, "AND", Option.none, true⟩
      [[("id", Value.str "e")]] rfl).1, by rfl⟩

/-- C1 counterexample: a mapping whose "vector" key is present but bound
to None, in a collection with no embedding function, does not fail with
EmbeddingError: the null vector satisfies neither branch condition of
the vector-resolution checks and the mapping passes through to schema
validation. -/
theorem prepare_null_vector_counterexample :
    prepare_data_for_add 2 Option.none "fresh" 0
      [("id", Value.str "e1"), ("timestamp_created", Value.num 0),
       ("vector", Value.none), ("content", Value.str "x")] =
      .ok [("id", Value.str "e1"), ("timestamp_created", Value.num 0),
       ("vector", Value.none), ("content", Value.str "x")] := rfl

/-- C1 (amended): over the default-filled mapping, the vector-resolution
checks behave as follows: a present non-null vector fails with
SchemaError exactly when its length differs from the collection
dimension; with the "vector" key absent, an EmbeddingError is raised
when no embedding function is configured, and with one configured
exactly when its declared source field is missing or empty; a "vector"
key bound to None passes the checks (neither error) and the mapping
proceeds to schema validation. -/
theorem prepare_vector_resolution (dim : Nat) (ef : Option EF)
    (freshId : String) (now : ℚ) (d : FieldMap) :
    (∀ xs, FieldMap.find? (prepare_defaults freshId now d) "vector" =
        some (Value.vec xs) →
      (prepare_data_for_add dim ef freshId now d = .error .schemaError ↔
        xs.length ≠ dim) ∧
      (xs.length = dim → prepare_data_for_add dim ef freshId now d =
        .ok (prepare_defaults freshId now d))) ∧
    (FieldMap.find? (prepare_defaults freshId now d) "vector" =
        some Value.none →
      prepare_data_for_add dim ef freshId now d =
        .ok (prepare_defaults freshId now d)) ∧
    (FieldMap.find? (prepare_defaults freshId now d) "vector" =
        Option.none → ef = Option.none →
      prepare_data_for_add dim ef freshId now d =
        .error .embeddingError) ∧
    (∀ fef, FieldMap.find? (prepare_defaults freshId now d) "vector" =
        Option.none → ef = some fef →
      ((FieldMap.getOrNone (prepare_defaults freshId now d)
          fef.sourceField).pyTruthy = true →
        prepare_data_for_add dim ef freshId now d =
          .ok (prepare_defaults freshId now d)) ∧
      ((FieldMap.getOrNone (prepare_defaults freshId now d)
          fef.sourceField).pyTruthy = false →
        prepare_data_for_add dim ef freshId now d =
          .error .embeddingError)) := by
  unfold prepare_data_for_add vector_checks
  refine ⟨?_, ?_, ?_, ?_⟩
  · intro xs hvec
    rw [hvec]
    dsimp only [Value.isNone, Value.pyLen]
    constructor
    · by_cases hlen : xs.length = dim
      · simp [hlen]
      · simp [hlen]
    · intro hlen
      simp [hlen]
  · intro hvec
    rw [hvec]
    rfl
  · intro hvec hef
    rw [hvec, hef]
  · intro fef hvec hef
    rw [hvec, hef]
    dsimp only
    constructor
    · intro htr
      rw [htr]
      rfl
    · intro hfa
      rw [hfa]
      rfl

/-- C1 witness: a wrong-length vector is a SchemaError; no vector and no
embedding function is an EmbeddingError; no vector with an embedding
function whose source field is absent is an EmbeddingError. -/
theorem prepare_vector_resolution_witness :
    prepare_data_for_add 2 Option.none "f" 0
      [("id", Value.str "a"), ("timestamp_created", Value.num 0),
       ("vector", Value.vec [1, 2, 3]), ("content", Value.str "x")] =
      .error .schemaError ∧
    prepare_data_for_add 2 Option.none "f" 0
      [("id", Value.str "a"), ("timestamp_created", Value.num 0),
       ("content", Value.str "x")] = .error .embeddingError ∧
    prepare_data_for_add 2 (some ⟨Option.none⟩) "f" 0
      [("id", Value.str "a"), ("timestamp_created", Value.num 0)] =
      .error .embeddingError :=
  ⟨((prepare_vector_resolution 2 Option.none "f" 0
      [("id", Value.str "a"), ("timestamp_created", Value.num 0),
       ("vector", Value.vec [1, 2, 3]), ("content", Value.str "x")]).1
      [1, 2, 3] (by decide)).1.mpr (by decide),
   (prepare_vector_resolution 2 Option.none "f" 0
      [("id", Value.str "a"), ("timestamp_created", Value.num 0),
       ("content", Value.str "x")]).2.2.1 (by decide) rfl,
   ((prepare_vector_resolution 2 (some ⟨Option.none⟩) "f" 0
      [("id", Value.str "a"), ("timestamp_created", Value.num 0)]).2.2.2
      ⟨Option.none⟩ (by decide) rfl).2 (by decide)⟩

/-- add_batch leaves every previously allocated dict object unchanged:
only the freshly allocated copies are mutated. -/
theorem add_batch_preserves (dim : Nat) (ef : Option EF)
    (fids : Nat → String) (now : ℚ) :
    ∀ (callers : List Nat) (i : Nat) (h : Heap) (c : Nat), c < h.next →
      ((add_batchHeap dim ef fids now i h callers).2).get c = h.get c := by
  intro callers
  induction callers with
  | nil =>
      intro i h c hc
      rfl
  | cons c' cs ih =>
      intro i h c hc
      have hne : h.next ≠ c := Nat.ne_of_gt hc
      have hstep : ∀ d2 : FieldMap,
          (((h.alloc (h.get c')).2.put (h.alloc (h.get c')).1 d2).get c) =
            h.get c := by
        intro d2
        simp [Heap.put, Heap.alloc, Heap.get, Heap.lookup, hne]
      unfold add_batchHeap
      dsimp only
      split
      · exact hstep _
      · split
        next ids h3 heq2 =>
          have hrec := ih (i + 1)
            ((h.alloc (h.get c')).2.put (h.alloc (h.get c')).1
              (prepare_defaults (fids i) now
                (((h.alloc (h.get c')).2).get (h.alloc (h.get c')).1)))
            c (Nat.lt_succ_of_lt hc)
          rw [heq2] at hrec
          exact hrec.trans (hstep _)
        next e h3 heq2 =>
          have hrec := ih (i + 1)
            ((h.alloc (h.get c')).2.put (h.alloc (h.get c')).1
              (prepare_defaults (fids i) now
                (((h.alloc (h.get c')).2).get (h.alloc (h.get c')).1)))
            c (Nat.lt_succ_of_lt hc)
          rw [heq2] at hrec
          exact hrec.trans (hstep _)

/-- C10: add and add_batch never mutate the caller's argument mappings:
each supplied dict is shallow-copied before the defaults are inserted,
so after the call — whether it succeeds or fails — every caller
reference still points to exactly the mapping it held before. -/
theorem add_does_not_mutate_caller (dim : Nat) (ef : Option EF)
    (freshId : String) (fids : Nat → String) (now : ℚ) (h : Heap)
    (caller : Nat) (callers : List Nat) (i : Nat)
    (hc : caller < h.next) (hcs : ∀ c ∈ callers, c < h.next) :
    ((addHeap dim ef freshId now h caller).2).get caller =
      h.get caller ∧
    ∀ c ∈ callers,
      ((add_batchHeap dim ef fids now i h callers).2).get c = h.get c := by
  constructor
  · have hne : h.next ≠ caller := Nat.ne_of_gt hc
    show (((h.alloc (h.get caller)).2.put (h.alloc (h.get caller)).1
        (prepare_defaults freshId now
          (((h.alloc (h.get caller)).2).get
            (h.alloc (h.get caller)).1))).get caller) = h.get caller
    simp [Heap.put, Heap.alloc, Heap.get, Heap.lookup, hne]
  · intro c hcmem
    exact add_batch_preserves dim ef fids now callers i h c (hcs c hcmem)

/-- C10 witness: a concrete one-entry heap; both add and add_batch leave
the caller's dict exactly as it was. -/
theorem add_does_not_mutate_caller_witness :
    ((addHeap 2 Option.none "u" 0
        ⟨[(0, [("content", Value.str "x")])], 1⟩ 0).2).get 0 =
      [("content", Value.str "x")] ∧
    ((add_batchHeap 2 Option.none (fun _ => "u") 0 0
        ⟨[(0, [("content", Value.str "x")])], 1⟩ [0]).2).get 0 =
      [("content", Value.str "x")] := by
  have h := add_does_not_mutate_caller 2 Option.none "u" (fun _ => "u") 0
    ⟨[(0, [("content", Value.str "x")])], 1⟩ 0 [0] 0 (by decide)
    (by decide)
  exact ⟨h.1.trans (by rfl), (h.2 0 (by decide)).trans (by rfl)⟩

end AgentVectorDB
